import Mathlib

/-!
Shallow embedding of the OAuth token lifecycle manager of the
remote-mcp-auth-github repository: the Session Record (Props), the Cognito
token exchange client, the JWT claims decoder, the near-expiry policy, the
update rule, and the refresh / retry drivers.

Ambient effects of the TypeScript source are made explicit parameters:
the current Unix time (Date.now) is a parameter `now`; each provider HTTP
round trip is a parameter `net : HttpResp` holding the status and the
parsed JSON body the provider would return; the base64+JSON payload decode
used by parseJWT (atob composed with JSON.parse, which may throw) is a
parameter `dec : String → Option Payload`. Functions that perform a
network round trip also return the number of round trips made, so that
"no network call" claims are statable. A thrown JS exception is modelled
as an error value (Option / Except).
-/

namespace CognitoOAuth

/-- JavaScript truthiness of an optional string field: undefined and the
empty string are falsy, every other string is truthy. -/
def strTruthy : Option String → Bool
  | none => false
  | some s => !(s == "")

/-- Reading an optional string field into a string slot; an absent
(undefined) value is represented by the empty string. -/
def jsStr : Option String → String
  | none => ""
  | some s => s

/-- The Session Record: the Props object stored with the session
(src/utils.ts, type Props). -/
structure Props where
  sub : String
  login : String
  name : String
  email : String
  accessToken : String
  idToken : String
  refreshToken : String
  tokenExpiresAt : Int
  tokenIssuedAt : Int
deriving Repr, DecidableEq

/-- The parsed JSON body of the provider token endpoint, with the optional
fields the source destructures. -/
structure TokenResponse where
  access_token : Option String
  id_token : Option String
  refresh_token : Option String
  token_type : Option String
  expires_in : Option Int
deriving Repr, DecidableEq

/-- One provider HTTP round trip: the status code and the parsed JSON body
the provider would deliver on that round trip. -/
structure HttpResp where
  status : Nat
  tokens : TokenResponse
deriving Repr, DecidableEq

/-- resp.ok of the fetch API: status in the 200..299 range. -/
def HttpResp.ok (r : HttpResp) : Bool :=
  decide (200 ≤ r.status) && decide (r.status < 300)

/-- An error Response produced by the exchange client: new Response(body,
status). -/
structure ErrResp where
  status : Nat
  body : String
deriving Repr, DecidableEq

/-- The decoded JWT payload fields the source reads. -/
structure Payload where
  sub : Option String
  email : Option String
  given_name : Option String
  family_name : Option String
deriving Repr, DecidableEq

/-- Internal failure cause inside parseJWT before the catch-all: the
split-count guard throws "Invalid JWT format", and a failing
atob/JSON.parse of the second segment throws its own error. -/
inductive JwtFailCause
  | invalidFormat
  | payloadError
deriving Repr, DecidableEq

/-- Helper for jsSplitDot: walk the characters, cutting at every dot. -/
def splitDotAux : List Char → List Char → List String
  | [], acc => [String.mk acc.reverse]
  | c :: rest, acc =>
    if c = '.' then String.mk acc.reverse :: splitDotAux rest []
    else splitDotAux rest (c :: acc)

/-- The JS expression token.split with a dot separator: every dot cuts,
segments may be empty, and the empty string splits to a single empty
segment. -/
def jsSplitDot (s : String) : List String :=
  splitDotAux s.toList []

/-- The body of the try block of parseJWT (src/utils.ts): split the token
on dots, require exactly three parts, then base64-decode and JSON-parse
the second part, keeping track of which step failed. -/
def parseJWTCause (dec : String → Option Payload) (token : String) :
    Except JwtFailCause Payload :=
  let parts := jsSplitDot token
  if parts.length ≠ 3 then
    .error .invalidFormat
  else
    match dec (parts[1]!) with
    | none => .error .payloadError
    | some payload => .ok payload

/-- parseJWT (src/utils.ts): the catch block swallows either internal
failure cause and rethrows one generic error, so callers observe a single
error value for both failure modes. -/
def parseJWT (dec : String → Option Payload) (token : String) :
    Except String Payload :=
  match parseJWTCause dec token with
  | .error _ => .error ("Failed to parse JWT token")
  | .ok payload => .ok payload

/-- parseJWT applied to an optional string, as at the call site
parseJWT(tokens.id_token): an undefined token makes token.split throw
inside the try block, so the same generic error is thrown. -/
def parseJWTOpt (dec : String → Option Payload) : Option String → Except String Payload
  | none => .error ("Failed to parse JWT token")
  | some t => parseJWT dec t

/-- isTokenNearExpiry (src/utils.ts): the token is near expiry when its
computed expiry, tokenIssuedAt plus expiryMinutes in seconds, is at most
five minutes from now. -/
def isTokenNearExpiry (now : Int) (tokenIssuedAt : Int)
    (expiryMinutes : Int := 60) : Bool :=
  let tokenExpiresAt := tokenIssuedAt + expiryMinutes * 60
  let fiveMinutesFromNow := now + 5 * 60
  decide (tokenExpiresAt ≤ fiveMinutesFromNow)

/-- fetchCognitoAuthToken (src/utils.ts): the authorization-code exchange.
Returns the exchange result and the number of network round trips made.
A falsy code short-circuits with a 400 Response before any fetch; a
non-ok provider status gives a 500 Response; a body missing the access
token or the id token gives a 400 Response; otherwise the parsed body is
returned. -/
def fetchCognitoAuthToken (code : Option String) (net : HttpResp) :
    Except ErrResp TokenResponse × Nat :=
  if !(strTruthy code) then
    (.error ⟨400, "Missing code"⟩, 0)
  else if !net.ok then
    (.error ⟨500, "Failed to fetch access token"⟩, 1)
  else if !(strTruthy net.tokens.access_token) || !(strTruthy net.tokens.id_token) then
    (.error ⟨400, "Missing tokens in response"⟩, 1)
  else
    (.ok net.tokens, 1)

/-- refreshCognitoTokens (src/utils.ts): the refresh-token exchange.
The source performs no emptiness check on refresh_token: the fetch is
always issued. A non-ok provider status gives a 500 Response; a body
missing the access token or the id token gives a 400 Response; otherwise
the parsed body is returned. -/
def refreshCognitoTokens (refresh_token : String) (net : HttpResp) :
    Except ErrResp TokenResponse × Nat :=
  if !net.ok then
    (.error ⟨500, "Failed to refresh tokens"⟩, 1)
  else if !(strTruthy net.tokens.access_token) || !(strTruthy net.tokens.id_token) then
    (.error ⟨400, "Missing tokens in refresh response"⟩, 1)
  else
    (.ok net.tokens, 1)

/-- updatePropsWithTokens (src/utils.ts): the update rule applied to the
Session Record after a successful exchange. parseJWT of the new id token
may throw, in which case no updated record is produced (none); on success
the new record takes the bundle tokens, keeps the existing refresh token
when the bundle has none, stamps issuedAt with the current time and
expiresAt sixty minutes later, and refreshes identity fields from the new
payload with truthy-fallback to the existing values. -/
def updatePropsWithTokens (now : Int) (dec : String → Option Payload)
    (currentProps : Props) (tokens : TokenResponse) : Option Props :=
  match parseJWTOpt dec tokens.id_token with
  | .error _ => none
  | .ok idTokenPayload =>
    some { currentProps with
      accessToken := jsStr tokens.access_token
      idToken := jsStr tokens.id_token
      refreshToken :=
        if strTruthy tokens.refresh_token then jsStr tokens.refresh_token
        else currentProps.refreshToken
      tokenIssuedAt := now
      tokenExpiresAt := now + 60 * 60
      sub :=
        if strTruthy idTokenPayload.sub then jsStr idTokenPayload.sub
        else currentProps.sub
      email :=
        if strTruthy idTokenPayload.email then jsStr idTokenPayload.email
        else currentProps.email
      name :=
        if strTruthy idTokenPayload.given_name && strTruthy idTokenPayload.family_name then
          jsStr idTokenPayload.given_name ++ " " ++ jsStr idTokenPayload.family_name
        else if strTruthy idTokenPayload.email then jsStr idTokenPayload.email
        else currentProps.name }

/-- refreshTokenOnFailure (src/index.ts, MyMCP): attempt a refresh
exchange with the record current refresh token; on an error Response
return false leaving the record as it was; if updatePropsWithTokens
throws, the catch returns false and no assignment has happened; on
success Object.assign installs the updated record and true is returned.
The result pairs the returned boolean with the record after the call. -/
def refreshTokenOnFailure (now : Int) (dec : String → Option Payload)
    (props : Props) (net : HttpResp) : Bool × Props :=
  match (refreshCognitoTokens props.refreshToken net).fst with
  | .error _ => (false, props)
  | .ok newTokens =>
    match updatePropsWithTokens now dec props newTokens with
    | none => (false, props)
    | some updatedProps => (true, updatedProps)

/-- ensureValidTokens (src/index.ts, MyMCP): when the token is not near
expiry, return at once with no exchange; otherwise run the refresh
exchange, keeping the current record on any failure (error Response or a
thrown update) and installing the updated record on success. The result
pairs the record after the call with the number of exchange round trips
made. -/
def ensureValidTokens (now : Int) (dec : String → Option Payload)
    (props : Props) (net : HttpResp) : Props × Nat :=
  if !(isTokenNearExpiry now props.tokenIssuedAt) then
    (props, 0)
  else
    match refreshCognitoTokens props.refreshToken net with
    | (.error _, n) => (props, n)
    | (.ok newTokens, n) =>
      match updatePropsWithTokens now dec props newTokens with
      | none => (props, n)
      | some updatedProps => (updatedProps, n)

/-- One downstream HTTP response as seen by the retry-aware invoker. -/
structure Resp where
  status : Nat
  body : String
deriving Repr, DecidableEq

/-- Observable outcome of makeApiCallWithRetry: the returned response, the
number of downstream fetches issued, the Session Record after the call,
and whether the refresh path was entered. -/
structure ApiCallOutcome where
  response : Resp
  fetchCount : Nat
  props : Props
  refreshAttempted : Bool
deriving Repr, DecidableEq

/-- makeApiCallWithRetry (src/index.ts, MyMCP): issue the downstream
request; only when the response status is 401 and maxRetries is positive,
attempt refreshTokenOnFailure, and only when that refresh succeeded issue
the request a second time with the refreshed bearer token; in every other
case the first response is returned as-is. The first and second downstream
responses are parameters. -/
def makeApiCallWithRetry (now : Int) (dec : String → Option Payload)
    (props : Props) (net : HttpResp) (first second : Resp)
    (maxRetries : Int := 1) : ApiCallOutcome :=
  if first.status = 401 ∧ maxRetries > 0 then
    let r := refreshTokenOnFailure now dec props net
    if r.fst then
      ⟨second, 2, r.snd, true⟩
    else
      ⟨first, 1, r.snd, true⟩
  else
    ⟨first, 1, props, false⟩

/-- The Props object built at the /callback route
(src/github-handler.ts): identity fields from the decoded id token
payload, tokens from the exchanged bundle, issuedAt the current time and
expiresAt sixty minutes later. -/
def callbackProps (now : Int) (tokens : TokenResponse) (payload : Payload) : Props :=
  { sub := jsStr payload.sub
    login := jsStr payload.email
    name :=
      if strTruthy payload.given_name && strTruthy payload.family_name then
        jsStr payload.given_name ++ " " ++ jsStr payload.family_name
      else jsStr payload.email
    email := jsStr payload.email
    accessToken := jsStr tokens.access_token
    idToken := jsStr tokens.id_token
    refreshToken := jsStr tokens.refresh_token
    tokenIssuedAt := now
    tokenExpiresAt := now + 60 * 60 }

/-! Concrete fixtures used to evaluate the definitions at explicit
inputs. -/

/-- A concrete Session Record issued at time 1000. -/
def sampleProps : Props :=
  { sub := "u1", login := "u1@example.com", name := "User One",
    email := "u1@example.com", accessToken := "A1", idToken := "I1",
    refreshToken := "R1", tokenExpiresAt := 4600, tokenIssuedAt := 1000 }

/-- A payload decoder that fails on every segment (as atob plus JSON.parse
does on a non-base64 segment). -/
def decNone : String → Option Payload := fun _ => none

/-- A concrete decoded claim set. -/
def samplePayload : Payload :=
  { sub := some "u1", email := some "u1@example.com",
    given_name := none, family_name := none }

/-- A payload decoder that decodes the segment P1 to a concrete claim set
and fails on every other segment. -/
def decStub : String → Option Payload := fun s =>
  if s == "P1" then some samplePayload else none

/-- A complete token bundle: both mandatory tokens present, a fresh
refresh token, and a provider-declared TTL. -/
def fullTokens : TokenResponse :=
  { access_token := some "A2", id_token := some "H2.P1.S2",
    refresh_token := some "R2", token_type := some "Bearer",
    expires_in := some 3600 }

/-- A token bundle missing the refresh token. -/
def noRefreshTokens : TokenResponse :=
  { access_token := some "A2", id_token := some "H2.P1.S2",
    refresh_token := none, token_type := some "Bearer",
    expires_in := some 3600 }

/-- A token bundle missing the id token. -/
def noIdTokens : TokenResponse :=
  { access_token := some "A2", id_token := none,
    refresh_token := some "R2", token_type := some "Bearer",
    expires_in := some 3600 }

/-- A 200 provider round trip delivering the complete bundle. -/
def okNet : HttpResp := { status := 200, tokens := fullTokens }

/-- A 200 provider round trip delivering a bundle with no refresh
token. -/
def okNetNoRefresh : HttpResp := { status := 200, tokens := noRefreshTokens }

/-- A 200 provider round trip delivering a bundle with no id token. -/
def okNetNoId : HttpResp := { status := 200, tokens := noIdTokens }

/-- A 500 provider round trip: the exchange is rejected upstream. -/
def badNet : HttpResp := { status := 500, tokens := fullTokens }

/-- The record sampleProps refreshed at time 5000 with the full bundle. -/
def refreshedProps : Props :=
  { sub := "u1", login := "u1@example.com", name := "u1@example.com",
    email := "u1@example.com", accessToken := "A2", idToken := "H2.P1.S2",
    refreshToken := "R2", tokenExpiresAt := 8600, tokenIssuedAt := 5000 }

/-- The record sampleProps refreshed at time 5000 with the bundle that has
no refresh token: the old refresh token is kept. -/
def refreshedPropsKeepRT : Props :=
  { sub := "u1", login := "u1@example.com", name := "u1@example.com",
    email := "u1@example.com", accessToken := "A2", idToken := "H2.P1.S2",
    refreshToken := "R1", tokenExpiresAt := 8600, tokenIssuedAt := 5000 }

/-! Helper lemmas shared by the claim theorems. -/

/-- A truthy optional string reads back as a nonempty string. -/
theorem strTruthy_jsStr_ne_empty {o : Option String} (h : strTruthy o = true) :
    jsStr o ≠ "" := by
  cases o with
  | none => simp [strTruthy] at h
  | some s =>
    simp only [strTruthy] at h
    simpa [jsStr] using h

/-- On every failure path refreshTokenOnFailure returns the record it was
given. -/
theorem refresh_false_frame (now : Int) (dec : String → Option Payload)
    (props : Props) (net : HttpResp)
    (h : (refreshTokenOnFailure now dec props net).fst = false) :
    (refreshTokenOnFailure now dec props net).snd = props := by
  unfold refreshTokenOnFailure at h ⊢
  cases hr : (refreshCognitoTokens props.refreshToken net).fst with
  | error e => simp [hr]
  | ok t =>
    cases hu : updatePropsWithTokens now dec props t with
    | none => simp [hr, hu]
    | some p => simp [hr, hu] at h

/-- Field view of a successful updatePropsWithTokens application. -/
theorem updateProps_fields (now : Int) (dec : String → Option Payload)
    (props : Props) (tokens : TokenResponse) (p' : Props)
    (h : updatePropsWithTokens now dec props tokens = some p') :
    p'.accessToken = jsStr tokens.access_token ∧
    p'.idToken = jsStr tokens.id_token ∧
    p'.tokenIssuedAt = now ∧
    p'.tokenExpiresAt = now + 60 * 60 ∧
    (strTruthy tokens.refresh_token = false →
      p'.refreshToken = props.refreshToken) := by
  unfold updatePropsWithTokens at h
  cases hp : parseJWTOpt dec tokens.id_token with
  | error e => rw [hp] at h; exact absurd h (by simp)
  | ok pay =>
    rw [hp, Option.some_inj] at h
    subst h
    refine ⟨rfl, rfl, rfl, rfl, ?_⟩
    intro hf
    simp [hf]

/-- A successful refresh exchange happened on an ok round trip and its
bundle carries both mandatory tokens. -/
theorem refreshCognitoTokens_ok_truthy (rt : String) (net : HttpResp)
    (t : TokenResponse)
    (h : (refreshCognitoTokens rt net).fst = Except.ok t) :
    net.ok = true ∧ strTruthy t.access_token = true ∧
    strTruthy t.id_token = true ∧ t = net.tokens := by
  unfold refreshCognitoTokens at h
  split at h
  · simp at h
  · split at h
    · simp at h
    · rename_i h1 h2
      simp only at h
      rw [Except.ok.injEq] at h
      subst h
      simp only [Bool.not_eq_true'] at h1
      simp only [Bool.or_eq_true, Bool.not_eq_true'] at h2
      push_neg at h2
      exact ⟨by simpa using h1, by simpa using h2.1, by simpa using h2.2, rfl⟩

/-- A successful code exchange happened with a truthy code on an ok round
trip and its bundle carries both mandatory tokens. -/
theorem fetchCognitoAuthToken_ok_truthy (code : Option String)
    (net : HttpResp) (t : TokenResponse)
    (h : (fetchCognitoAuthToken code net).fst = Except.ok t) :
    strTruthy code = true ∧ net.ok = true ∧
    strTruthy t.access_token = true ∧ strTruthy t.id_token = true ∧
    t = net.tokens := by
  unfold fetchCognitoAuthToken at h
  split at h
  · simp at h
  · split at h
    · simp at h
    · split at h
      · simp at h
      · rename_i h0 h1 h2
        simp only at h
        rw [Except.ok.injEq] at h
        subst h
        simp only [Bool.not_eq_true'] at h0 h1
        simp only [Bool.or_eq_true, Bool.not_eq_true'] at h2
        push_neg at h2
        exact ⟨by simpa using h0, by simpa using h1,
          by simpa using h2.1, by simpa using h2.2, rfl⟩

/-! Claim theorems. -/

/-- C8: isTokenNearExpiry returns true exactly when issuedAt plus the TTL
in seconds is at most five minutes (300 seconds) past now; it is a pure
function of its arguments (no I/O in the embedding). In particular, with
the default 60-minute TTL, issuedAt = now - 3600 + 200 is near expiry and
issuedAt = now - 100 is not. -/
theorem isTokenNearExpiry_spec (now tokenIssuedAt expiryMinutes : Int) :
    (isTokenNearExpiry now tokenIssuedAt expiryMinutes = true ↔
      tokenIssuedAt + expiryMinutes * 60 ≤ now + 300) ∧
    isTokenNearExpiry now (now - 3600 + 200) = true ∧
    isTokenNearExpiry now (now - 100) = false := by
  refine ⟨?_, ?_, ?_⟩ <;> simp [isTokenNearExpiry] <;> omega

/-- C4: when the record is not near expiry, ensureValidTokens is a no-op:
zero exchange round trips and the record is returned field-for-field
unchanged. -/
theorem ensureValidTokens_noop (now : Int) (dec : String → Option Payload)
    (props : Props) (net : HttpResp)
    (h : isTokenNearExpiry now props.tokenIssuedAt = false) :
    ensureValidTokens now dec props net = (props, 0) := by
  unfold ensureValidTokens
  simp [h]

/-- Witness for C4 at a concrete record issued 100 seconds ago. -/
theorem ensureValidTokens_noop_witness :
    isTokenNearExpiry 1100 sampleProps.tokenIssuedAt = false ∧
    ensureValidTokens 1100 decStub sampleProps okNet = (sampleProps, 0) :=
  ⟨by decide, ensureValidTokens_noop 1100 decStub sampleProps okNet (by decide)⟩

/-- C1: whenever refreshTokenOnFailure reports failure — the provider
rejected the exchange, the bundle lacked a mandatory token, or the new id
token failed to decode — the Session Record after the call is exactly the
record before it: no field mutated, no partial update committed. -/
theorem refresh_failure_leaves_record_unchanged (now : Int)
    (dec : String → Option Payload) (props : Props) (net : HttpResp)
    (h : (refreshTokenOnFailure now dec props net).fst = false) :
    (refreshTokenOnFailure now dec props net).snd = props :=
  refresh_false_frame now dec props net h

/-- Witness for C1 at a concrete upstream-rejected refresh. -/
theorem refresh_failure_leaves_record_unchanged_witness :
    (refreshTokenOnFailure 5000 decStub sampleProps badNet).fst = false ∧
    (refreshTokenOnFailure 5000 decStub sampleProps badNet).snd = sampleProps :=
  ⟨by decide,
    refresh_failure_leaves_record_unchanged 5000 decStub sampleProps badNet
      (by decide)⟩

/-- C10: the near-expiry decision never reads the stored tokenExpiresAt:
two records differing only in tokenExpiresAt get the same isTokenNearExpiry
verdict, and ensureValidTokens performs the same number of exchange round
trips on both. -/
theorem nearExpiry_independent_of_tokenExpiresAt (now e : Int)
    (dec : String → Option Payload) (q : Props) (net : HttpResp) :
    isTokenNearExpiry now ({ q with tokenExpiresAt := e } : Props).tokenIssuedAt =
      isTokenNearExpiry now q.tokenIssuedAt ∧
    (ensureValidTokens now dec { q with tokenExpiresAt := e } net).snd =
      (ensureValidTokens now dec q net).snd := by
  refine ⟨rfl, ?_⟩
  unfold ensureValidTokens
  cases hn : isTokenNearExpiry now q.tokenIssuedAt with
  | false => simp [hn]
  | true =>
    simp only [hn, Bool.not_true, Bool.false_eq_true, if_false]
    cases hr : refreshCognitoTokens q.refreshToken net with
    | mk res n =>
      cases res with
      | error e2 => simp [hr]
      | ok t =>
        cases hp : parseJWTOpt dec t.id_token with
        | error e3 => simp [hr, updatePropsWithTokens, hp]
        | ok pay => simp [hr, updatePropsWithTokens, hp]

/-- C2: makeApiCallWithRetry issues at most two downstream fetches; it
issues a second fetch exactly when the first response is a 401, retries
remain, and the refresh succeeded; a non-401 first response is returned
as-is with no refresh attempt and the record untouched; and when the
refresh fails the original 401 response is returned with the record
untouched. -/
theorem makeApiCallWithRetry_spec (now : Int) (dec : String → Option Payload)
    (props : Props) (net : HttpResp) (first second : Resp)
    (maxRetries : Int) :
    (makeApiCallWithRetry now dec props net first second maxRetries).fetchCount ≤ 2 ∧
    ((makeApiCallWithRetry now dec props net first second maxRetries).fetchCount = 2 ↔
      first.status = 401 ∧ maxRetries > 0 ∧
        (refreshTokenOnFailure now dec props net).fst = true) ∧
    (first.status ≠ 401 →
      makeApiCallWithRetry now dec props net first second maxRetries =
        ⟨first, 1, props, false⟩) ∧
    (first.status = 401 → maxRetries > 0 →
      (refreshTokenOnFailure now dec props net).fst = false →
      makeApiCallWithRetry now dec props net first second maxRetries =
        ⟨first, 1, props, true⟩) := by
  unfold makeApiCallWithRetry
  by_cases hc : first.status = 401 ∧ maxRetries > 0
  · obtain ⟨h401, hmr⟩ := hc
    cases hf : (refreshTokenOnFailure now dec props net).fst with
    | true => simp [h401, hmr, hf]
    | false =>
      have hs := refresh_false_frame now dec props net hf
      simp [h401, hmr, hf, hs]
  · rw [if_neg hc]
    refine ⟨by norm_num, ?_, fun _ => rfl, fun ha hb _ => absurd ⟨ha, hb⟩ hc⟩
    constructor
    · intro h; simp at h
    · rintro ⟨ha, hb, -⟩; exact absurd ⟨ha, hb⟩ hc

/-- Witness for C2: a 403 first response passes through untouched, and a
401 first response with an upstream-rejected refresh is returned
unchanged after a single fetch. -/
theorem makeApiCallWithRetry_spec_witness :
    makeApiCallWithRetry 1100 decStub sampleProps okNet
        { status := 403, body := "forbidden" } { status := 200, body := "done" } 1 =
      { response := { status := 403, body := "forbidden" }, fetchCount := 1,
        props := sampleProps, refreshAttempted := false } ∧
    makeApiCallWithRetry 5000 decStub sampleProps badNet
        { status := 401, body := "unauthorized" } { status := 200, body := "done" } 1 =
      { response := { status := 401, body := "unauthorized" }, fetchCount := 1,
        props := sampleProps, refreshAttempted := true } :=
  ⟨(makeApiCallWithRetry_spec 1100 decStub sampleProps okNet
      { status := 403, body := "forbidden" } { status := 200, body := "done" } 1).2.2.1
      (by decide),
   (makeApiCallWithRetry_spec 5000 decStub sampleProps badNet
      { status := 401, body := "unauthorized" } { status := 200, body := "done" } 1).2.2.2
      rfl (by decide) (by decide)⟩

/-- C3 counterexample: refreshCognitoTokens has no missing-input guard.
With an empty refresh token it still performs exactly one network round
trip and, when the provider answers 200 with a full bundle, it succeeds
instead of failing with a 400 client-error result before the network
call. -/
theorem refresh_missing_input_counterexample :
    (refreshCognitoTokens ("") okNet).snd = 1 ∧
    (refreshCognitoTokens ("") okNet).fst = Except.ok fullTokens :=
  ⟨rfl, rfl⟩

/-- C3 amended: fetchCognitoAuthToken fails with the 400 Missing-code
Response and zero network calls whenever the code is absent or empty;
refreshCognitoTokens performs no such input check and always issues
exactly one network round trip, empty refresh token included. -/
theorem missing_input_guard_amended (code : Option String) (rt : String)
    (net : HttpResp) :
    (strTruthy code = false →
      fetchCognitoAuthToken code net = (Except.error ⟨400, "Missing code"⟩, 0)) ∧
    (refreshCognitoTokens rt net).snd = 1 := by
  constructor
  · intro h
    unfold fetchCognitoAuthToken
    simp [h]
  · unfold refreshCognitoTokens
    split
    · rfl
    · split <;> rfl

/-- Witness for the amended C3 at an empty code and an empty refresh
token. -/
theorem missing_input_guard_amended_witness :
    fetchCognitoAuthToken (some ("")) okNet =
      (Except.error ⟨400, "Missing code"⟩, 0) ∧
    (refreshCognitoTokens ("") okNet).snd = 1 :=
  ⟨(missing_input_guard_amended (some ("")) ("") okNet).1 (by decide),
   (missing_input_guard_amended (some ("")) ("") okNet).2⟩

/-- C5: both exchanges return the 400 missing-tokens Response exactly when
the parsed 200-response bundle lacks the access token or the id token; a
successful exchange always carries both; a refresh against such a bundle
leaves the record unchanged; and a successful refresh followed by the
update rule writes both token fields to nonempty values together. -/
theorem mandatory_pair_invariant (code : Option String) (rt : String)
    (net : HttpResp) (now : Int) (dec : String → Option Payload)
    (props p' : Props) (t : TokenResponse) :
    (strTruthy code = true → net.ok = true →
      ((fetchCognitoAuthToken code net).fst =
          Except.error ⟨400, "Missing tokens in response"⟩ ↔
        (strTruthy net.tokens.access_token = false ∨
          strTruthy net.tokens.id_token = false))) ∧
    (net.ok = true →
      ((refreshCognitoTokens rt net).fst =
          Except.error ⟨400, "Missing tokens in refresh response"⟩ ↔
        (strTruthy net.tokens.access_token = false ∨
          strTruthy net.tokens.id_token = false))) ∧
    ((refreshCognitoTokens rt net).fst = Except.ok t →
      strTruthy t.access_token = true ∧ strTruthy t.id_token = true) ∧
    ((fetchCognitoAuthToken code net).fst = Except.ok t →
      strTruthy t.access_token = true ∧ strTruthy t.id_token = true) ∧
    (net.ok = true →
      (strTruthy net.tokens.access_token = false ∨
        strTruthy net.tokens.id_token = false) →
      refreshTokenOnFailure now dec props net = (false, props)) ∧
    ((refreshCognitoTokens rt net).fst = Except.ok t →
      updatePropsWithTokens now dec props t = some p' →
      p'.accessToken ≠ "" ∧ p'.idToken ≠ "") := by
  refine ⟨?_, ?_, ?_, ?_, ?_, ?_⟩
  · intro hc hok
    unfold fetchCognitoAuthToken
    cases ha : strTruthy net.tokens.access_token <;>
      cases hi : strTruthy net.tokens.id_token <;> simp [hc, hok, ha, hi]
  · intro hok
    unfold refreshCognitoTokens
    cases ha : strTruthy net.tokens.access_token <;>
      cases hi : strTruthy net.tokens.id_token <;> simp [hok, ha, hi]
  · intro h
    have hh := refreshCognitoTokens_ok_truthy rt net t h
    exact ⟨hh.2.1, hh.2.2.1⟩
  · intro h
    have hh := fetchCognitoAuthToken_ok_truthy code net t h
    exact ⟨hh.2.2.1, hh.2.2.2.1⟩
  · intro hok hmiss
    unfold refreshTokenOnFailure
    have herr : (refreshCognitoTokens props.refreshToken net).fst =
        Except.error ⟨400, "Missing tokens in refresh response"⟩ := by
      unfold refreshCognitoTokens
      rcases hmiss with ha | hi
      · simp [hok, ha]
      · simp [hok, hi]
    simp [herr]
  · intro hok hu
    obtain ⟨hacc, hid, -, -, -⟩ := updateProps_fields now dec props t p' hu
    have ht := refreshCognitoTokens_ok_truthy rt net t hok
    rw [hacc, hid]
    exact ⟨strTruthy_jsStr_ne_empty ht.2.1, strTruthy_jsStr_ne_empty ht.2.2.1⟩

/-- Witness for C5: a 200 bundle missing the id token yields the 400
missing-tokens Response and a refresh against it leaves the concrete
record unchanged. -/
theorem mandatory_pair_invariant_witness :
    (fetchCognitoAuthToken (some ("c1")) okNetNoId).fst =
      Except.error ⟨400, "Missing tokens in response"⟩ ∧
    refreshTokenOnFailure 5000 decStub sampleProps okNetNoId =
      (false, sampleProps) :=
  ⟨((mandatory_pair_invariant (some ("c1")) ("R1") okNetNoId 5000 decStub
      sampleProps sampleProps fullTokens).1 (by decide) (by decide)).mpr
      (by decide),
   (mandatory_pair_invariant (some ("c1")) ("R1") okNetNoId 5000 decStub
      sampleProps sampleProps fullTokens).2.2.2.2.1 (by decide) (by decide)⟩

/-- C6: every successful application of the update rule stamps issuedAt
with the current time and expiresAt exactly 3600 seconds later,
independently of the provider-declared expires_in; the record built at the
authorization-code callback satisfies the same fixed 60-minute window. -/
theorem expiry_window_spec (now : Int) (dec : String → Option Payload)
    (props p' : Props) (tokens : TokenResponse) (payload : Payload)
    (e : Option Int) :
    (updatePropsWithTokens now dec props tokens = some p' →
      p'.tokenExpiresAt - p'.tokenIssuedAt = 3600 ∧ p'.tokenIssuedAt = now) ∧
    updatePropsWithTokens now dec props { tokens with expires_in := e } =
      updatePropsWithTokens now dec props tokens ∧
    (callbackProps now tokens payload).tokenExpiresAt -
        (callbackProps now tokens payload).tokenIssuedAt = 3600 ∧
    (callbackProps now tokens payload).tokenIssuedAt = now := by
  refine ⟨?_, rfl, ?_, rfl⟩
  · intro h
    obtain ⟨-, -, hiss, hexp, -⟩ := updateProps_fields now dec props tokens p' h
    rw [hiss, hexp]
    omega
  · show (now + 60 * 60) - now = 3600
    omega

/-- Witness for C6 at a concrete refresh of sampleProps at time 5000. -/
theorem expiry_window_spec_witness :
    updatePropsWithTokens 5000 decStub sampleProps fullTokens =
      some refreshedProps ∧
    refreshedProps.tokenExpiresAt - refreshedProps.tokenIssuedAt = 3600 ∧
    refreshedProps.tokenIssuedAt = 5000 :=
  have h : updatePropsWithTokens 5000 decStub sampleProps fullTokens =
      some refreshedProps := by decide
  ⟨h, (expiry_window_spec 5000 decStub sampleProps refreshedProps fullTokens
      samplePayload none).1 h⟩

/-- C7: a successful update whose bundle omits the refresh token (or
carries an empty one) keeps the record previous refresh token. -/
theorem refreshToken_retention (now : Int) (dec : String → Option Payload)
    (props p' : Props) (tokens : TokenResponse)
    (hrt : strTruthy tokens.refresh_token = false)
    (h : updatePropsWithTokens now dec props tokens = some p') :
    p'.refreshToken = props.refreshToken :=
  (updateProps_fields now dec props tokens p' h).2.2.2.2 hrt

/-- Witness for C7 at a concrete bundle with no refresh token. -/
theorem refreshToken_retention_witness :
    strTruthy noRefreshTokens.refresh_token = false ∧
    updatePropsWithTokens 5000 decStub sampleProps noRefreshTokens =
      some refreshedPropsKeepRT ∧
    refreshedPropsKeepRT.refreshToken = sampleProps.refreshToken :=
  have h : updatePropsWithTokens 5000 decStub sampleProps noRefreshTokens =
      some refreshedPropsKeepRT := by decide
  ⟨by decide, h,
    refreshToken_retention 5000 decStub sampleProps refreshedPropsKeepRT
      noRefreshTokens (by decide) h⟩

/-- C9 counterexample: the two decode failure modes are not distinct at
the call boundary. A four-segment token fails via the split-count guard
and a three-segment token with an undecodable payload fails via the parse
step, but parseJWT throws the identical generic error for both. -/
theorem parseJWT_error_not_distinct :
    parseJWTCause decNone ("not.a.jwt.extra") =
      Except.error JwtFailCause.invalidFormat ∧
    parseJWTCause decNone ("h.p.s") = Except.error JwtFailCause.payloadError ∧
    parseJWT decNone ("not.a.jwt.extra") = parseJWT decNone ("h.p.s") ∧
    parseJWT decNone ("not.a.jwt.extra") =
      Except.error ("Failed to parse JWT token") :=
  ⟨rfl, rfl, rfl, rfl⟩

/-- C9 amended: parseJWT rejects every token that does not split into
exactly three dot-segments (internal cause: the invalid-format guard) and
rejects tokens whose second segment does not decode (internal cause: the
payload parse step); the catch-all rethrows one and the same generic error
for both causes, so they are not distinct to the caller; on a
three-segment token with a decodable second segment it returns the decoded
payload. -/
theorem parseJWT_amended (dec : String → Option Payload) (token : String)
    (p : Payload) :
    ((jsSplitDot token).length ≠ 3 →
      parseJWTCause dec token = Except.error JwtFailCause.invalidFormat ∧
      parseJWT dec token = Except.error ("Failed to parse JWT token")) ∧
    ((jsSplitDot token).length = 3 → dec ((jsSplitDot token)[1]!) = none →
      parseJWTCause dec token = Except.error JwtFailCause.payloadError ∧
      parseJWT dec token = Except.error ("Failed to parse JWT token")) ∧
    ((jsSplitDot token).length = 3 → dec ((jsSplitDot token)[1]!) = some p →
      parseJWT dec token = Except.ok p) := by
  refine ⟨?_, ?_, ?_⟩
  · intro h
    have hc : parseJWTCause dec token = Except.error JwtFailCause.invalidFormat := by
      unfold parseJWTCause
      simp [h]
    exact ⟨hc, by unfold parseJWT; rw [hc]⟩
  · intro h hd
    have hc : parseJWTCause dec token = Except.error JwtFailCause.payloadError := by
      unfold parseJWTCause
      simp [h, hd]
    exact ⟨hc, by unfold parseJWT; rw [hc]⟩
  · intro h hd
    unfold parseJWT parseJWTCause
    simp [h, hd]

/-- Witness for the amended C9 at a four-segment token and at a decodable
three-segment token. -/
theorem parseJWT_amended_witness :
    (parseJWTCause decStub ("not.a.jwt.extra") =
        Except.error JwtFailCause.invalidFormat ∧
      parseJWT decStub ("not.a.jwt.extra") =
        Except.error ("Failed to parse JWT token")) ∧
    parseJWT decStub ("H2.P1.S2") = Except.ok samplePayload :=
  ⟨(parseJWT_amended decStub ("not.a.jwt.extra") samplePayload).1 (by decide),
   (parseJWT_amended decStub ("H2.P1.S2") samplePayload).2.2 (by decide)
      (by decide)⟩

end CognitoOAuth
